import Mathlib

/-!
Shallow embedding of the core of `us_visa_scheduler_colombia` (src/visa.py).

Conventions used throughout:
* Python exceptions are modelled by `Option`/`Except` failure values (`none`,
  `Except.error`): a function that can raise returns `none` exactly on the
  inputs where the Python code raises.
* The effectful attempts of the retried network queries are modelled by an
  environment `env : Nat → AttemptResult _` giving the outcome the world
  produces for each attempt index (`.err` = any exception during that attempt,
  `.ok v` = the attempt's response parsed to `v`).  A query then becomes a
  pure function of its environment, additionally reporting how many attempts
  it consumed and which log/sleep effects it performed.
* Python's `str | bool` return convention (`False` on failure) is modelled by
  `Option`: `none` stands for the returned `False`.
-/

/-- visa.py line 61: `MINUTE = 60`. -/
def MINUTE : Nat := 60

/-- visa.py line 62: `HOUR = 60 * MINUTE`. -/
def HOUR : Nat := 60 * MINUTE

/-- visa.py line 114: `REQUEST_ATTEMPTS = 5`. -/
def REQUEST_ATTEMPTS : Nat := 5

/-- visa.py lines 120-123: the fixed success-marker substrings scanned for in
the reschedule response body (one English, one Spanish). -/
def SUCCESS_PATTERNS : List String :=
  ["Successfully Scheduled",
   "Usted ha programado exitosamente su cita de visa"]

/-- The default value of the `desired_time` parameter of
`closest_time_to_desired_time` (visa.py line 414). -/
def DESIRED_TIME_DEFAULT : String := "10:00"

/-- One entry of a date-listing response: `item["date"]` together with the
truthiness of `item.get("business_day")`. -/
structure SlotEntry where
  date : String
  business_day : Bool
deriving DecidableEq, Repr

/-- Outcome the world produces for one attempt of a query: `.err` is any
exception raised while performing/parsing the request, `.ok v` is a response
that parsed to `v`. -/
inductive AttemptResult (α : Type) where
  | err : AttemptResult α
  | ok : α → AttemptResult α
deriving DecidableEq, Repr

/-- Observable side effects of the retried query loops: the `info_logger`
calls of the exception handlers (carrying the triggering parameters that the
logged message interpolates) and the `time.sleep(STEP_TIME)` between
attempts. -/
inductive QEffect where
  | logCasDateError (consulate_date consulate_time : String)
  | logCasTimeError (cas_date consulate_date consulate_time : String)
  | logTimeError (date_visa : String)
  | sleepStep
deriving DecidableEq, Repr

/-- Splits a character list at every occurrence of the separator character
(the result always has one more group than there are separators). -/
def splitOnChar (sep : Char) : List Char → List (List Char)
  | [] => [[]]
  | a :: rest =>
    match splitOnChar sep rest with
    | [] => [[]]
    | g :: gs => if a = sep then [] :: g :: gs else (a :: g) :: gs

/-- Value of a 1- or 2-digit decimal field, as accepted by the `%H`, `%M`,
`%m` and `%d` codes of `datetime.strptime`; `none` on anything else. -/
def twoDigitField? (cs : List Char) : Option Nat :=
  match cs with
  | [c] => if c.isDigit then some (c.toNat - 48) else none
  | [c, d] =>
    if c.isDigit ∧ d.isDigit then some ((c.toNat - 48) * 10 + (d.toNat - 48)) else none
  | _ => none

/-- `datetime.strptime(s, "%H:%M")`, reduced to the minutes-since-midnight it
denotes: `none` models a raised `ValueError`. -/
def parseHM (s : String) : Option Nat :=
  match splitOnChar ':' s.data with
  | [h, m] =>
    match twoDigitField? h, twoDigitField? m with
    | some hh, some mm => if hh < 24 ∧ mm < 60 then some (hh * 60 + mm) else none
    | _, _ => none
  | _ => none

/-- The accumulator loop of Python's `min(iterable, key=...)` over an already
keyed list: the current best is replaced only by a strictly smaller key, so
the first minimal element wins. -/
def keyedMin : (String × Nat) → List (String × Nat) → String × Nat
  | x, [] => x
  | x, y :: ys => keyedMin (if y.2 < x.2 then y else x) ys

/-- Keying pass of `min(available_hours, key=lambda t: abs(strptime(t) - target))`:
pairs each candidate with its absolute distance in minutes to the target;
`none` models the `ValueError` raised by `strptime` on an unparsable
candidate. -/
def mapKeys (target : Nat) : List String → Option (List (String × Nat))
  | [] => some []
  | t :: ts =>
    match parseHM t with
    | none => none
    | some v =>
      match mapKeys target ts with
      | none => none
      | some ks => some ((t, Nat.dist target v) :: ks)

/-- visa.py lines 412-433, `closest_time_to_desired_time`: parse the desired
time, key every candidate by its absolute difference in minutes, and take the
first minimal candidate.  `none` models the exceptions of the Python code:
`strptime` failing on `desired_time` or on a candidate, or `min` raising
`ValueError` on an empty sequence. -/
def closest_time_to_desired_time (available_hours : List String)
    (desired_time : String) : Option String :=
  match parseHM desired_time with
  | none => none
  | some target =>
    match mapKeys target available_hours with
    | none => none
    | some [] => none
    | some (k :: ks) => some (keyedMin k ks).1

/-- visa.py lines 371-409, the attempt loop of `get_cas_date`, mapped over
the list of outcomes the successive attempts would produce.  Each `.ok`
response is filtered to its truthy-`business_day` entries and mapped to
their `date` fields; a non-empty result returns its last element
(`dates[-1]`), anything else (empty result, or an exception, which is logged
with the triggering parameters) sleeps and retries.  Returns the result
(`none` = the Python `False`), the number of attempts consumed, and the
log/sleep effects performed. -/
def get_cas_date_run (consulate_date consulate_time : String) :
    List (AttemptResult (List SlotEntry)) → Option String × Nat × List QEffect
  | [] => (none, 0, [])
  | a :: rest =>
    match a with
    | .ok json_data =>
      let dates := (json_data.filter (fun item => item.business_day)).map
        (fun item => item.date)
      match dates.getLast? with
      | some cas_date => (some cas_date, 1, [])
      | none =>
        let r := get_cas_date_run consulate_date consulate_time rest
        (r.1, r.2.1 + 1, QEffect.sleepStep :: r.2.2)
    | .err =>
      let r := get_cas_date_run consulate_date consulate_time rest
      (r.1, r.2.1 + 1,
        QEffect.logCasDateError consulate_date consulate_time :: QEffect.sleepStep :: r.2.2)

/-- visa.py lines 371-409, `get_cas_date`: runs the attempt loop over the
the `REQUEST_ATTEMPTS` (= 5) attempts of the `for attempt in range(...)`
loop, attempt `i` receiving outcome `env i`. -/
def get_cas_date (consulate_date consulate_time : String)
    (env : Nat → AttemptResult (List SlotEntry)) : Option String × Nat × List QEffect :=
  get_cas_date_run consulate_date consulate_time ((List.range REQUEST_ATTEMPTS).map env)

/-- visa.py lines 436-476, the attempt loop of `get_cas_time`.  Each `.ok`
response carries the parsed `available_times` list (`[]` also covers a
missing/`None` field, which the code treats identically via falsiness); a
non-empty list is fed to `closest_time_to_desired_time` (whose exception,
e.g. on an unparsable entry, is caught and logged); an empty list just
prints, sleeps and retries. -/
def get_cas_time_run (consulate_date consulate_time cas_date : String) :
    List (AttemptResult (List String)) → Option String × Nat × List QEffect
  | [] => (none, 0, [])
  | a :: rest =>
    match a with
    | .ok available_times =>
      match available_times with
      | [] =>
        let r := get_cas_time_run consulate_date consulate_time cas_date rest
        (r.1, r.2.1 + 1, QEffect.sleepStep :: r.2.2)
      | t :: ts =>
        match closest_time_to_desired_time (t :: ts) DESIRED_TIME_DEFAULT with
        | some closest_time => (some closest_time, 1, [])
        | none =>
          let r := get_cas_time_run consulate_date consulate_time cas_date rest
          (r.1, r.2.1 + 1,
            QEffect.logCasTimeError cas_date consulate_date consulate_time ::
              QEffect.sleepStep :: r.2.2)
    | .err =>
      let r := get_cas_time_run consulate_date consulate_time cas_date rest
      (r.1, r.2.1 + 1,
        QEffect.logCasTimeError cas_date consulate_date consulate_time ::
          QEffect.sleepStep :: r.2.2)

/-- visa.py lines 436-476, `get_cas_time`, over its 5 attempts. -/
def get_cas_time (consulate_date consulate_time cas_date : String)
    (env : Nat → AttemptResult (List String)) : Option String × Nat × List QEffect :=
  get_cas_time_run consulate_date consulate_time cas_date
    ((List.range REQUEST_ATTEMPTS).map env)

/-- visa.py lines 608-640, the attempt loop of `get_consulate_appointment_time`.
Any exception — including the one `closest_time_to_desired_time` raises when
`available_times` is empty or holds an unparsable entry, and the one raised
by `", ".join` when the field is `None` (covered by `.err`) — is caught,
logged with the triggering date, and retried after the fixed delay. -/
def get_consulate_appointment_time_run (date_visa : String) :
    List (AttemptResult (List String)) → Option String × Nat × List QEffect
  | [] => (none, 0, [])
  | a :: rest =>
    match a with
    | .ok available_times =>
      match closest_time_to_desired_time available_times DESIRED_TIME_DEFAULT with
      | some time_available => (some time_available, 1, [])
      | none =>
        let r := get_consulate_appointment_time_run date_visa rest
        (r.1, r.2.1 + 1, QEffect.logTimeError date_visa :: QEffect.sleepStep :: r.2.2)
    | .err =>
      let r := get_consulate_appointment_time_run date_visa rest
      (r.1, r.2.1 + 1, QEffect.logTimeError date_visa :: QEffect.sleepStep :: r.2.2)

/-- visa.py lines 608-640, `get_consulate_appointment_time`, over its 5
attempts. -/
def get_consulate_appointment_time (date_visa : String)
    (env : Nat → AttemptResult (List String)) : Option String × Nat × List QEffect :=
  get_consulate_appointment_time_run date_visa ((List.range REQUEST_ATTEMPTS).map env)

/-- visa.py lines 589-605, `get_consulate_appointment_date`: a single
`try/except` with NO retry loop.  Exactly one attempt outcome is consumed:
a successful response returns whatever it parsed to (the empty list
included), any exception returns `False` (`none`) at once.  The attempt
count is reported for comparison with the retried queries. -/
def get_consulate_appointment_date (env : Nat → AttemptResult (List SlotEntry)) :
    Option (List SlotEntry) × Nat :=
  match env 0 with
  | .ok json_data => (some json_data, 1)
  | .err => (none, 1)

/-- Boolean substring containment, the meaning of Python's
`substring in r.text`. -/
def containsSubstr (pattern s : String) : Bool :=
  decide (List.IsInfix pattern.data s.data)

/-- The reschedule POST response: status code and body text
(`r.status_code`, `r.text`). -/
structure HttpResponse where
  status_code : Nat
  text : String
deriving DecidableEq, Repr

/-- Environment of one `reschedule(date)` call (visa.py lines 486-586): the
results of the three dependent lookups (`none` = the Python `False`) and the
response of the reschedule POST. -/
structure RescheduleEnv where
  timeResult : Option String
  casDateResult : Option String
  casTimeResult : Option String
  response : HttpResponse
deriving DecidableEq, Repr

/-- visa.py lines 486-586, `reschedule`: aborts with `False` as soon as any
of the three dependent lookups yields a falsy result; otherwise posts the
combined form and returns `True` exactly when the response body contains one
of the `SUCCESS_PATTERNS` substrings — the status code is never consulted. -/
def reschedule (env : RescheduleEnv) : Bool :=
  match env.timeResult with
  | none => false
  | some _time =>
    match env.casDateResult with
    | none => false
    | some _cas_date =>
      match env.casTimeResult with
      | none => false
      | some _cas_time =>
        SUCCESS_PATTERNS.any (fun substring => containsSubstr substring env.response.text)

/-- The configuration values of config.ini that the polling loop reads
(visa.py lines 38-39 and 66-70).  Durations configured in hours are
rationals, seconds bounds for the retry wait are the integers
`random.randint` needs. -/
structure Config where
  PRIOD_START : String
  PRIOD_END : String
  WORK_LIMIT_TIME : ℚ
  RETRY_TIME_L_BOUND : Nat
  RETRY_TIME_U_BOUND : Nat
deriving DecidableEq, Repr

/-- Nonempty all-digit numeral value (helper for `parseDate`). -/
def digitsValAux : List Char → Nat → Nat
  | [], acc => acc
  | c :: cs, acc => digitsValAux cs (acc * 10 + (c.toNat - 48))

/-- Value of the `%Y` field: 1 to 4 decimal digits. -/
def yearField? (cs : List Char) : Option Nat :=
  if cs ≠ [] ∧ cs.length ≤ 4 ∧ cs.all Char.isDigit then some (digitsValAux cs 0)
  else none

/-- `datetime.strptime(s, "%Y-%m-%d")`, reduced to the key
`year * 10000 + month * 100 + day`, whose `Nat` order agrees with the
`datetime` order used by the comparisons in `_is_in_period`; `none` models a
raised `ValueError`.  (Day-of-month validity beyond the 1..31 range — e.g.
February 30 — is not modelled; no claim depends on it.) -/
def parseDate (s : String) : Option Nat :=
  match splitOnChar '-' s.data with
  | [y, m, d] =>
    match yearField? y, twoDigitField? m, twoDigitField? d with
    | some yy, some mm, some dd =>
      if 1 ≤ mm ∧ mm ≤ 12 ∧ 1 ≤ dd ∧ dd ≤ 31 then some (yy * 10000 + mm * 100 + dd)
      else none
    | _, _, _ => none
  | _ => none

/-- visa.py lines 643-645, `_is_in_period`: parses the date (raising —
`none` — on failure) and checks `new_date <= end and new_date >= start`. -/
def _is_in_period (date : String) (priod_start priod_end : Nat) : Option Bool :=
  (parseDate date).map (fun new_date => decide (new_date ≤ priod_end ∧ priod_start ≤ new_date))

/-- The scanning loop of `get_available_date`: first entry whose date lies in
the period; `Except.error` models a `ValueError` escaping the loop body. -/
def get_available_date_go (priod_start priod_end : Nat) :
    List SlotEntry → Except Unit (Option String)
  | [] => Except.ok none
  | d :: rest =>
    match _is_in_period d.date priod_start priod_end with
    | none => Except.error ()
    | some true => Except.ok (some d.date)
    | some false => get_available_date_go priod_start priod_end rest

/-- visa.py lines 648-669, `get_available_date`: parses the two period
bounds, then returns the first listed date inside the inclusive window, or
`none` when no entry qualifies.  `Except.error` models an uncaught
`ValueError` (malformed configured bound or malformed listed date), which
propagates into the polling loop's `except` clause. -/
def get_available_date (cfg : Config) (dates : List SlotEntry) :
    Except Unit (Option String) :=
  match parseDate cfg.PRIOD_START, parseDate cfg.PRIOD_END with
  | some ps, some pe => get_available_date_go ps pe dates
  | _, _ => Except.error ()

/-- Phase of the polling state machine of `start_visa_process` (visa.py
lines 716-756): `authenticating` models `first_loop = True` (the next
iteration re-runs the login block and resets the work-cycle counters),
`polling` models `first_loop = False`, `done` the `break` after a successful
reschedule, `aborted` the `break` of the `except` clause (and of a failed
login). -/
inductive Phase where
  | authenticating
  | polling
  | done
  | aborted
deriving DecidableEq, Repr

/-- Loop-carried state: the phase and the `req_count` counter. -/
structure LoopSt where
  phase : Phase
  reqCount : Nat
deriving DecidableEq, Repr

/-- Externally observable actions of one polling cycle, in the order the
code performs them.  `sleepBanCooldown` stands for
`time.sleep(BAN_COOLDOWN_TIME * HOUR)` and `sleepWorkCooldown` for
`time.sleep(WORK_COOLDOWN_TIME * HOUR)`, the two configured cooldown
durations; `callReschedule d` marks entry into the dependent-lookup +
submission stage `reschedule(d)`. -/
inductive Effect where
  | notifyBan
  | notifyRest
  | signOut
  | sleepBanCooldown
  | sleepWorkCooldown
  | sleepRetry (seconds : Nat)
  | callReschedule (date : String)
deriving DecidableEq, Repr

/-- Environment of one polling cycle: what the world answers to the calls the
cycle makes.  `datesResult` is the value `get_consulate_appointment_date()`
returned (`none` = its `False` after an exception); `rescheduleOk` is the
outcome of `reschedule(date)` if it is called; `totalTime` is the elapsed
work-cycle seconds `time.time() - t0` measured this cycle; `retryRand` is the
value `random.randint(RETRY_TIME_L_BOUND, RETRY_TIME_U_BOUND)` drew. -/
structure CycleEnv where
  datesResult : Option (List SlotEntry)
  rescheduleOk : Bool
  totalTime : ℚ
  retryRand : Nat
deriving DecidableEq, Repr

/-- visa.py lines 771-778, `handle_ban_situation`: log + BAN notification,
sign out, sleep for the ban cooldown (in this order in the code). -/
def handle_ban_situation : List Effect :=
  [Effect.notifyBan, Effect.signOut, Effect.sleepBanCooldown]

/-- visa.py lines 793-807, `handle_break_time`: `True` (take a rest) exactly
when `total_time > WORK_LIMIT_TIME * HOUR`, in which case it notifies REST,
signs out and sleeps for the work cooldown. -/
def handle_break_time (cfg : Config) (total_time : ℚ) : Bool × List Effect :=
  if total_time > cfg.WORK_LIMIT_TIME * (HOUR : ℚ) then
    (true, [Effect.notifyRest, Effect.signOut, Effect.sleepWorkCooldown])
  else (false, [])

/-- visa.py lines 810-816, `handle_retry_wait`: sleep the drawn number of
seconds. -/
def handle_retry_wait (retry_wait_time : Nat) : List Effect :=
  [Effect.sleepRetry retry_wait_time]

/-- visa.py lines 732-755: one iteration of the `while True` body of
`start_visa_process` with `first_loop = False`, as a function of the current
`req_count` and the cycle's environment.  Returns the state the loop carries
into the next iteration and the effects performed.  A falsy `dates` takes
the ban branch and sets `first_loop = True`; otherwise the first in-window
date (if any) is handed to `reschedule`; success breaks the loop, failure or
no date falls through to the work-limit check and then the randomized retry
wait.  An exception escaping the body (modelled for the `ValueError` of
`get_available_date`) breaks the loop via `handle_exception`. -/
def start_visa_process_cycle (cfg : Config) (req_count : Nat) (env : CycleEnv) :
    LoopSt × List Effect :=
  let rc := req_count + 1
  match env.datesResult with
  | none => (⟨Phase.authenticating, rc⟩, handle_ban_situation)
  | some dates =>
    if dates.isEmpty then (⟨Phase.authenticating, rc⟩, handle_ban_situation)
    else
      match get_available_date cfg dates with
      | Except.error _ => (⟨Phase.aborted, rc⟩, [])
      | Except.ok none =>
        let brk := handle_break_time cfg env.totalTime
        if brk.1 then (⟨Phase.authenticating, rc⟩, brk.2)
        else (⟨Phase.polling, rc⟩, brk.2 ++ handle_retry_wait env.retryRand)
      | Except.ok (some date) =>
        if env.rescheduleOk then (⟨Phase.done, rc⟩, [Effect.callReschedule date])
        else
          let brk := handle_break_time cfg env.totalTime
          if brk.1 then
            (⟨Phase.authenticating, rc⟩, Effect.callReschedule date :: brk.2)
          else
            (⟨Phase.polling, rc⟩,
              Effect.callReschedule date :: (brk.2 ++ handle_retry_wait env.retryRand))

/-- visa.py lines 722-730: the `first_loop` block run when the loop resumes
in the `authenticating` phase — reset `t0`, `total_time` and `req_count`,
then log in; a failed login breaks the loop. -/
def start_visa_process_resume (loginOk : Bool) : LoopSt :=
  if loginOk then ⟨Phase.polling, 0⟩ else ⟨Phase.aborted, 0⟩

/-- Outcome the world produces for one login attempt of
`start_login_process`: the attempt completed and the wrong-credentials
marker was found (`wrongCreds`), it completed with the continue marker and
no wrong-credentials marker (`success`), or some step raised
(timeout/DOM/network — `error`). -/
inductive LoginAttempt where
  | success
  | wrongCreds
  | error
deriving DecidableEq, Repr

/-- Observable side effects of `start_login_process`: the user-facing
notification of `_handle_notification` on wrong credentials, and the
log + `time.sleep(STEP_TIME)` of the `except` clause. -/
inductive LoginEffect where
  | notifyWrongCreds
  | logFailure
  | sleepStep
deriving DecidableEq, Repr

/-- The per-attempt effects of `k` consecutive transient login failures. -/
def loginErrEffects : Nat → List LoginEffect
  | 0 => []
  | k + 1 => LoginEffect.logFailure :: LoginEffect.sleepStep :: loginErrEffects k

/-- visa.py lines 259-324, the `while attempts < REQUEST_ATTEMPTS` loop of
`start_login_process` over the outcomes of the successive attempts: a
wrong-credentials marker notifies and returns `False` immediately; success
returns `True`; any exception is logged, sleeps `STEP_TIME` and retries.
Returns the result, the number of attempts consumed, and the effects. -/
def start_login_process_run : List LoginAttempt → Bool × Nat × List LoginEffect
  | [] => (false, 0, [])
  | a :: rest =>
    match a with
    | .success => (true, 1, [])
    | .wrongCreds => (false, 1, [LoginEffect.notifyWrongCreds])
    | .error =>
      let r := start_login_process_run rest
      (r.1, r.2.1 + 1, LoginEffect.logFailure :: LoginEffect.sleepStep :: r.2.2)

/-- visa.py lines 259-324, `start_login_process`, over its
`REQUEST_ATTEMPTS` (= 5) bounded attempts. -/
def start_login_process (env : Nat → LoginAttempt) : Bool × Nat × List LoginEffect :=
  start_login_process_run ((List.range REQUEST_ATTEMPTS).map env)

/-- The first-minimum accumulator loop splits its input around its result:
everything strictly before the result has a strictly larger key (ties are
won by the earlier element), and the result's key is a lower bound for every
key. -/
theorem keyedMin_decomp :
    ∀ (l : List (String × Nat)) (x : String × Nat),
      ∃ pre post,
        x :: l = pre ++ keyedMin x l :: post ∧
        (∀ y ∈ pre, (keyedMin x l).2 < y.2) ∧
        (∀ y ∈ x :: l, (keyedMin x l).2 ≤ y.2) := by
  intro l
  induction l with
  | nil =>
    intro x
    exact ⟨[], [], rfl, by simp, by simp [keyedMin]⟩
  | cons y ys ih =>
    intro x
    by_cases hlt : y.2 < x.2
    · obtain ⟨pre', post', hsplit, hpre, hle⟩ := ih y
      have hkm : keyedMin x (y :: ys) = keyedMin y ys := by simp [keyedMin, hlt]
      refine ⟨x :: pre', post', ?_, ?_, ?_⟩
      · rw [hkm, List.cons_append, ← hsplit]
      · intro z hz
        rw [hkm]
        rcases List.mem_cons.mp hz with h1 | h2
        · have h3 : (keyedMin y ys).2 ≤ y.2 := hle y (List.mem_cons_self y ys)
          subst h1; omega
        · exact hpre z h2
      · intro z hz
        rw [hkm]
        rcases List.mem_cons.mp hz with h1 | h2
        · have h3 : (keyedMin y ys).2 ≤ y.2 := hle y (List.mem_cons_self y ys)
          subst h1; omega
        · exact hle z h2
    · obtain ⟨pre', post', hsplit, hpre, hle⟩ := ih x
      have hkm : keyedMin x (y :: ys) = keyedMin x ys := by simp [keyedMin, hlt]
      cases pre' with
      | nil =>
        simp only [List.nil_append] at hsplit
        have hx : x = keyedMin x ys := (List.cons.injEq _ _ _ _).mp hsplit |>.1
        refine ⟨[], y :: ys, ?_, by simp, ?_⟩
        · rw [hkm, List.nil_append, ← hx]
        · intro z hz
          rw [hkm, ← hx]
          rcases List.mem_cons.mp hz with h1 | h2
          · subst h1; omega
          · rcases List.mem_cons.mp h2 with h3 | h4
            · subst h3; omega
            · have := hle z (List.mem_cons_of_mem x h4)
              rw [← hx] at this; exact this
      | cons p pre'' =>
        have hinj := (List.cons.injEq _ _ _ _).mp hsplit
        have hxp : x = p := hinj.1
        have hys : ys = pre'' ++ keyedMin x ys :: post' := hinj.2
        have hltx : (keyedMin x ys).2 < x.2 := by
          have h5 := hpre p (List.mem_cons_self p pre'')
          rw [← hxp] at h5
          exact h5
        refine ⟨x :: y :: pre'', post', ?_, ?_, ?_⟩
        · rw [hkm]
          simp only [List.cons_append]
          rw [← hys]
        · intro z hz
          rw [hkm]
          rcases List.mem_cons.mp hz with h1 | h2
          · subst h1; exact hltx
          · rcases List.mem_cons.mp h2 with h3 | h4
            · subst h3; omega
            · exact hpre z (List.mem_cons_of_mem p h4)
        · intro z hz
          rw [hkm]
          rcases List.mem_cons.mp hz with h1 | h2
          · subst h1; omega
          · rcases List.mem_cons.mp h2 with h3 | h4
            · subst h3; omega
            · exact hle z (List.mem_cons_of_mem x h4)

/-- Soundness of the keying pass: on success it preserves the candidates in
order and keys each one with its distance-to-target. -/
theorem mapKeys_sound (target : Nat) :
    ∀ (l : List String) (ks : List (String × Nat)),
      mapKeys target l = some ks →
      ks.map Prod.fst = l ∧
        ∀ p ∈ ks, ∃ v, parseHM p.1 = some v ∧ p.2 = Nat.dist target v := by
  intro l
  induction l with
  | nil =>
    intro ks h
    simp only [mapKeys, Option.some.injEq] at h
    subst h; simp
  | cons t ts ih =>
    intro ks h
    cases hp : parseHM t with
    | none => simp [mapKeys, hp] at h
    | some v =>
      cases hm : mapKeys target ts with
      | none => simp [mapKeys, hp, hm] at h
      | some ks' =>
        have h' : (t, Nat.dist target v) :: ks' = ks := by
          simpa [mapKeys, hp, hm] using h
        obtain ⟨hmap, hprop⟩ := ih ks' hm
        subst h'
        refine ⟨by simp [hmap], ?_⟩
        intro p hpmem
        rcases List.mem_cons.mp hpmem with h1 | h2
        · subst h1; exact ⟨v, hp, rfl⟩
        · exact hprop p h2

/-- The keying pass succeeds whenever every candidate parses. -/
theorem mapKeys_isSome (target : Nat) :
    ∀ l : List String, (∀ t ∈ l, (parseHM t).isSome) → (mapKeys target l).isSome := by
  intro l
  induction l with
  | nil => intro _; simp [mapKeys]
  | cons t ts ih =>
    intro h
    have ht := h t (List.mem_cons_self t ts)
    cases hp : parseHM t with
    | none => rw [hp] at ht; simp at ht
    | some v =>
      have hts := ih (fun u hu => h u (List.mem_cons_of_mem t hu))
      cases hm : mapKeys target ts with
      | none => rw [hm] at hts; simp at hts
      | some ks => simp [mapKeys, hp, hm]

/-- Claim C5: `closest_time_to_desired_time` is a deterministic pure
function: for every non-empty list of candidate times parsed as hour:minute
and a desired time, it returns the candidate whose absolute difference in
minutes to the desired time is minimal, with ties broken by input order (the
returned candidate splits the input so that every earlier candidate has a
strictly larger difference); in particular for candidates
["09:00", "11:30", "14:00"] and desired "10:00" it returns "09:00". -/
theorem claim_C5_closest_time_first_minimum
    (available_hours : List String) (desired_time : String) (target : Nat)
    (hdes : parseHM desired_time = some target)
    (hne : available_hours ≠ [])
    (hall : ∀ t ∈ available_hours, (parseHM t).isSome) :
    (∃ c pre post v,
      closest_time_to_desired_time available_hours desired_time = some c ∧
      available_hours = pre ++ c :: post ∧
      parseHM c = some v ∧
      (∀ t ∈ available_hours, ∀ w, parseHM t = some w →
        Nat.dist target v ≤ Nat.dist target w) ∧
      (∀ t ∈ pre, ∀ w, parseHM t = some w →
        Nat.dist target v < Nat.dist target w)) ∧
    closest_time_to_desired_time ["09:00", "11:30", "14:00"] "10:00" = some "09:00" := by
  refine ⟨?_, by decide⟩
  have hks := mapKeys_isSome target available_hours hall
  cases hm : mapKeys target available_hours with
  | none => rw [hm] at hks; simp at hks
  | some ks =>
    obtain ⟨hmap, hprop⟩ := mapKeys_sound target available_hours ks hm
    cases ks with
    | nil => rw [← hmap] at hne; simp at hne
    | cons k ks' =>
      obtain ⟨preK, postK, hsplit, hpre, hle⟩ := keyedMin_decomp ks' k
      have hrmem : keyedMin k ks' ∈ k :: ks' := by
        rw [hsplit]
        exact List.mem_append_right _ (List.mem_cons_self _ _)
      obtain ⟨v, hv, hr2⟩ := hprop _ hrmem
      refine ⟨(keyedMin k ks').1, preK.map Prod.fst, postK.map Prod.fst, v, ?_, ?_, hv, ?_, ?_⟩
      · simp [closest_time_to_desired_time, hdes, hm]
      · rw [← hmap, hsplit]
        simp
      · intro t htmem w hw
        rw [← hmap] at htmem
        obtain ⟨p, hpmem, hpt⟩ := List.mem_map.mp htmem
        obtain ⟨u, hu, hp2⟩ := hprop p hpmem
        have huw : u = w := by
          rw [hpt] at hu
          rw [hu] at hw
          exact Option.some.injEq _ _ ▸ hw.symm ▸ rfl
        have hlep := hle p hpmem
        rw [hr2, hp2, huw] at hlep
        exact hlep
      · intro t htmem w hw
        obtain ⟨p, hpmem, hpt⟩ := List.mem_map.mp htmem
        have hpmem' : p ∈ k :: ks' := by
          rw [hsplit]
          exact List.mem_append_left _ hpmem
        obtain ⟨u, hu, hp2⟩ := hprop p hpmem'
        have huw : u = w := by
          rw [hpt] at hu
          rw [hu] at hw
          exact Option.some.injEq _ _ ▸ hw.symm ▸ rfl
        have hltp := hpre p hpmem
        rw [hr2, hp2, huw] at hltp
        exact hltp

/-- Witness for C5 at the spec's example input: the hypotheses hold there
and the theorem applies. -/
theorem claim_C5_witness :
    parseHM "10:00" = some 600 ∧
    (["09:00", "11:30", "14:00"] : List String) ≠ [] ∧
    (∀ t ∈ (["09:00", "11:30", "14:00"] : List String), (parseHM t).isSome) ∧
    ((∃ c pre post v,
      closest_time_to_desired_time ["09:00", "11:30", "14:00"] "10:00" = some c ∧
      (["09:00", "11:30", "14:00"] : List String) = pre ++ c :: post ∧
      parseHM c = some v ∧
      (∀ t ∈ (["09:00", "11:30", "14:00"] : List String), ∀ w, parseHM t = some w →
        Nat.dist 600 v ≤ Nat.dist 600 w) ∧
      (∀ t ∈ pre, ∀ w, parseHM t = some w →
        Nat.dist 600 v < Nat.dist 600 w)) ∧
    closest_time_to_desired_time ["09:00", "11:30", "14:00"] "10:00" = some "09:00") :=
  ⟨by decide, by decide, by decide,
    claim_C5_closest_time_first_minimum ["09:00", "11:30", "14:00"] "10:00" 600
      (by decide) (by decide) (by decide)⟩

/-- Claim C10: `closest_time_to_desired_time` is partial at the empty input:
for the empty candidate list the Python code raises (`min` over an empty
sequence with no default — or `strptime` raising first on an unparsable
desired time) rather than returning a value; in the embedding, the result is
`none` for every desired time, never a `some` value, so callers needing a
value must establish non-emptiness. -/
theorem claim_C10_closest_time_empty_raises (desired_time : String) :
    closest_time_to_desired_time [] desired_time = none := by
  cases h : parseHM desired_time <;>
    simp [closest_time_to_desired_time, mapKeys, h]

/-- The five attempts of a `for attempt in range(1, REQUEST_ATTEMPTS + 1)`
loop, as the list of their environment outcomes. -/
theorem range_attempts_map {α : Type} (env : Nat → α) :
    (List.range REQUEST_ATTEMPTS).map env = [env 0, env 1, env 2, env 3, env 4] := rfl

/-- Claim C2: for every secondary-facility date listing whose entries, once
filtered to those with a truthy `business_day` flag, are non-empty,
`get_cas_date` selects the LAST date of that filtered (as-returned,
ascending) sequence — the latest linked-facility date, not the earliest; in
particular for returned business-day dates "2024-06-05", "2024-06-08" it
selects "2024-06-08". -/
theorem claim_C2_cas_date_selects_last
    (consulate_date consulate_time : String)
    (env : Nat → AttemptResult (List SlotEntry)) (json_data : List SlotEntry)
    (h0 : env 0 = AttemptResult.ok json_data)
    (hne : json_data.filter (fun item => item.business_day) ≠ []) :
    ((get_cas_date consulate_date consulate_time env).1 =
      ((json_data.filter (fun item => item.business_day)).map
        (fun item => item.date)).getLast? ∧
     (((json_data.filter (fun item => item.business_day)).map
        (fun item => item.date)).getLast?).isSome) ∧
    (get_cas_date "2024-06-10" "09:00"
      (fun _ => AttemptResult.ok
        [⟨"2024-06-05", true⟩, ⟨"2024-06-08", true⟩])).1 = some "2024-06-08" := by
  refine ⟨?_, by decide⟩
  have hmapne : (json_data.filter (fun item => item.business_day)).map
      (fun item => item.date) ≠ [] := by
    simpa using hne
  have hsome := List.getLast?_isSome.mpr hmapne
  obtain ⟨d, hd⟩ := Option.isSome_iff_exists.mp hsome
  refine ⟨?_, hsome⟩
  show (get_cas_date_run consulate_date consulate_time
    ((List.range REQUEST_ATTEMPTS).map env)).1 = _
  rw [range_attempts_map, h0]
  simp [get_cas_date_run, hd]

/-- Witness for C2: the theorem applied to the spec's example listing. -/
theorem claim_C2_witness :
    ((fun _ => AttemptResult.ok [(⟨"2024-06-05", true⟩ : SlotEntry), ⟨"2024-06-08", true⟩])
        (0 : Nat) = AttemptResult.ok [(⟨"2024-06-05", true⟩ : SlotEntry), ⟨"2024-06-08", true⟩]) ∧
    ([(⟨"2024-06-05", true⟩ : SlotEntry), ⟨"2024-06-08", true⟩].filter
        (fun item => item.business_day) ≠ []) ∧
    (get_cas_date "2024-06-10" "09:00"
      (fun _ => AttemptResult.ok
        [⟨"2024-06-05", true⟩, ⟨"2024-06-08", true⟩])).1 = some "2024-06-08" :=
  ⟨rfl, by decide,
    (claim_C2_cas_date_selects_last "2024-06-10" "09:00"
      (fun _ => AttemptResult.ok [⟨"2024-06-05", true⟩, ⟨"2024-06-08", true⟩])
      [⟨"2024-06-05", true⟩, ⟨"2024-06-08", true⟩] rfl (by decide)).2⟩

/-- Counterexample to claim C1 as stated: a run of `get_cas_date` in which
every one of the 5 attempts gets a successful response whose parsed result
is empty.  Contrary to the claim, the empty result is NOT returned to the
caller as an empty sequence without further attempts: the query retries
through all `REQUEST_ATTEMPTS` = 5 attempts (sleeping between them) and
surfaces the failure signal `False` (`none`). -/
theorem claim_C1_counterexample :
    get_cas_date "2024-06-10" "09:00" (fun _ => AttemptResult.ok []) =
      (none, 5, [QEffect.sleepStep, QEffect.sleepStep, QEffect.sleepStep,
        QEffect.sleepStep, QEffect.sleepStep]) := by
  decide

/-- Claim C1, amended: only the primary-facility date query treats an
empty-but-successful response as valid data, returning it to its caller as
the empty sequence in its single attempt, with ban interpretation left to
the polling loop; the primary time query and both secondary (CAS) queries
instead treat an empty parsed result as a failed attempt — they retry
through the 5 configured attempts and finally surface the failure signal
`False` to the caller. -/
theorem claim_C1_amended :
    (∀ (env : Nat → AttemptResult (List SlotEntry)) (json_data : List SlotEntry),
      env 0 = AttemptResult.ok json_data →
      get_consulate_appointment_date env = (some json_data, 1)) ∧
    (∀ (cd ct : String) (env : Nat → AttemptResult (List SlotEntry)),
      (∀ i, i < REQUEST_ATTEMPTS → env i = AttemptResult.ok []) →
      get_cas_date cd ct env =
        (none, 5, [QEffect.sleepStep, QEffect.sleepStep, QEffect.sleepStep,
          QEffect.sleepStep, QEffect.sleepStep])) ∧
    (∀ (dv : String) (env : Nat → AttemptResult (List String)),
      (∀ i, i < REQUEST_ATTEMPTS → env i = AttemptResult.ok []) →
      get_consulate_appointment_time dv env =
        (none, 5, [QEffect.logTimeError dv, QEffect.sleepStep,
          QEffect.logTimeError dv, QEffect.sleepStep,
          QEffect.logTimeError dv, QEffect.sleepStep,
          QEffect.logTimeError dv, QEffect.sleepStep,
          QEffect.logTimeError dv, QEffect.sleepStep])) ∧
    (∀ (cd ct cas : String) (env : Nat → AttemptResult (List String)),
      (∀ i, i < REQUEST_ATTEMPTS → env i = AttemptResult.ok []) →
      get_cas_time cd ct cas env =
        (none, 5, [QEffect.sleepStep, QEffect.sleepStep, QEffect.sleepStep,
          QEffect.sleepStep, QEffect.sleepStep])) := by
  refine ⟨?_, ?_, ?_, ?_⟩
  · intro env json_data h0
    simp [get_consulate_appointment_date, h0]
  · intro cd ct env h
    show get_cas_date_run cd ct ((List.range REQUEST_ATTEMPTS).map env) = _
    rw [range_attempts_map, h 0 (by decide), h 1 (by decide), h 2 (by decide),
      h 3 (by decide), h 4 (by decide)]
    rfl
  · intro dv env h
    show get_consulate_appointment_time_run dv ((List.range REQUEST_ATTEMPTS).map env) = _
    rw [range_attempts_map, h 0 (by decide), h 1 (by decide), h 2 (by decide),
      h 3 (by decide), h 4 (by decide)]
    rfl
  · intro cd ct cas env h
    show get_cas_time_run cd ct cas ((List.range REQUEST_ATTEMPTS).map env) = _
    rw [range_attempts_map, h 0 (by decide), h 1 (by decide), h 2 (by decide),
      h 3 (by decide), h 4 (by decide)]
    rfl

/-- Witness for the amended C1: two of its parts applied at concrete
environments (an empty successful primary-date response, and all-empty
successful CAS-date responses). -/
theorem claim_C1_witness :
    ((fun _ => AttemptResult.ok ([] : List SlotEntry)) (0 : Nat) =
      AttemptResult.ok ([] : List SlotEntry)) ∧
    (∀ i, i < REQUEST_ATTEMPTS →
      (fun _ => AttemptResult.ok ([] : List SlotEntry)) i =
        AttemptResult.ok ([] : List SlotEntry)) ∧
    get_consulate_appointment_date (fun _ => AttemptResult.ok []) = (some [], 1) ∧
    get_cas_date "2024-06-10" "09:00" (fun _ => AttemptResult.ok []) =
      (none, 5, [QEffect.sleepStep, QEffect.sleepStep, QEffect.sleepStep,
        QEffect.sleepStep, QEffect.sleepStep]) :=
  ⟨rfl, fun _ _ => rfl,
    claim_C1_amended.1 (fun _ => AttemptResult.ok []) [] rfl,
    claim_C1_amended.2.1 "2024-06-10" "09:00" (fun _ => AttemptResult.ok [])
      (fun _ _ => rfl)⟩

/-- Counterexample to claim C6 as stated: an environment whose first attempt
fails and whose remaining attempts would succeed.  The primary-facility date
query (`get_consulate_appointment_date`) is NOT retried: it consumes the
single failing attempt and surfaces `False` at once, although the very same
environment lets the (actually retried) CAS date query succeed. -/
theorem claim_C6_counterexample :
    get_consulate_appointment_date
      (fun i => if i = 0 then AttemptResult.err
        else AttemptResult.ok [⟨"2024-06-10", true⟩]) = (none, 1) ∧
    (get_cas_date "2024-06-10" "09:00"
      (fun i => if i = 0 then AttemptResult.err
        else AttemptResult.ok [⟨"2024-06-10", true⟩])).1 = some "2024-06-10" := by
  exact ⟨rfl, rfl⟩

/-- Claim C6, amended: the primary-facility time query and the two
secondary (CAS) queries are retried up to 5 attempts with a fixed short
delay between attempts before surfacing failure, and each attempt that
fails with an exception is logged with its triggering parameters; the
primary-facility date query, however, performs a single attempt and
surfaces failure to its caller immediately, without retrying. -/
theorem claim_C6_amended :
    (∀ env : Nat → AttemptResult (List SlotEntry),
      (get_consulate_appointment_date env).2 = 1) ∧
    (∀ env : Nat → AttemptResult (List SlotEntry),
      env 0 = AttemptResult.err → (get_consulate_appointment_date env).1 = none) ∧
    (∀ (cd ct : String) (env : Nat → AttemptResult (List SlotEntry))
        (json_data : List SlotEntry),
      (∀ i, i < 4 → env i = AttemptResult.err) →
      env 4 = AttemptResult.ok json_data →
      json_data.filter (fun item => item.business_day) ≠ [] →
      (get_cas_date cd ct env).1 =
        ((json_data.filter (fun item => item.business_day)).map
          (fun item => item.date)).getLast? ∧
      (get_cas_date cd ct env).2.1 = 5 ∧
      (get_cas_date cd ct env).2.2 =
        [QEffect.logCasDateError cd ct, QEffect.sleepStep,
         QEffect.logCasDateError cd ct, QEffect.sleepStep,
         QEffect.logCasDateError cd ct, QEffect.sleepStep,
         QEffect.logCasDateError cd ct, QEffect.sleepStep]) ∧
    (∀ (cd ct : String) (env : Nat → AttemptResult (List SlotEntry)),
      (∀ i, i < REQUEST_ATTEMPTS → env i = AttemptResult.err) →
      get_cas_date cd ct env =
        (none, 5,
         [QEffect.logCasDateError cd ct, QEffect.sleepStep,
          QEffect.logCasDateError cd ct, QEffect.sleepStep,
          QEffect.logCasDateError cd ct, QEffect.sleepStep,
          QEffect.logCasDateError cd ct, QEffect.sleepStep,
          QEffect.logCasDateError cd ct, QEffect.sleepStep])) ∧
    (∀ (dv : String) (env : Nat → AttemptResult (List String)),
      (∀ i, i < REQUEST_ATTEMPTS → env i = AttemptResult.err) →
      get_consulate_appointment_time dv env =
        (none, 5,
         [QEffect.logTimeError dv, QEffect.sleepStep,
          QEffect.logTimeError dv, QEffect.sleepStep,
          QEffect.logTimeError dv, QEffect.sleepStep,
          QEffect.logTimeError dv, QEffect.sleepStep,
          QEffect.logTimeError dv, QEffect.sleepStep])) ∧
    (∀ (cd ct cas : String) (env : Nat → AttemptResult (List String)),
      (∀ i, i < REQUEST_ATTEMPTS → env i = AttemptResult.err) →
      get_cas_time cd ct cas env =
        (none, 5,
         [QEffect.logCasTimeError cas cd ct, QEffect.sleepStep,
          QEffect.logCasTimeError cas cd ct, QEffect.sleepStep,
          QEffect.logCasTimeError cas cd ct, QEffect.sleepStep,
          QEffect.logCasTimeError cas cd ct, QEffect.sleepStep,
          QEffect.logCasTimeError cas cd ct, QEffect.sleepStep])) := by
  refine ⟨?_, ?_, ?_, ?_, ?_, ?_⟩
  · intro env
    cases h : env 0 <;> simp [get_consulate_appointment_date, h]
  · intro env h
    simp [get_consulate_appointment_date, h]
  · intro cd ct env json_data hpre h4 hne
    have hmapne : (json_data.filter (fun item => item.business_day)).map
        (fun item => item.date) ≠ [] := by
      simpa using hne
    obtain ⟨d, hd⟩ := Option.isSome_iff_exists.mp (List.getLast?_isSome.mpr hmapne)
    have hrun : get_cas_date cd ct env =
        (some d, 5,
         [QEffect.logCasDateError cd ct, QEffect.sleepStep,
          QEffect.logCasDateError cd ct, QEffect.sleepStep,
          QEffect.logCasDateError cd ct, QEffect.sleepStep,
          QEffect.logCasDateError cd ct, QEffect.sleepStep]) := by
      show get_cas_date_run cd ct ((List.range REQUEST_ATTEMPTS).map env) = _
      rw [range_attempts_map, hpre 0 (by decide), hpre 1 (by decide),
        hpre 2 (by decide), hpre 3 (by decide), h4]
      simp [get_cas_date_run, hd]
    rw [hrun, hd]
    exact ⟨rfl, rfl, rfl⟩
  · intro cd ct env h
    show get_cas_date_run cd ct ((List.range REQUEST_ATTEMPTS).map env) = _
    rw [range_attempts_map, h 0 (by decide), h 1 (by decide), h 2 (by decide),
      h 3 (by decide), h 4 (by decide)]
    rfl
  · intro dv env h
    show get_consulate_appointment_time_run dv ((List.range REQUEST_ATTEMPTS).map env) = _
    rw [range_attempts_map, h 0 (by decide), h 1 (by decide), h 2 (by decide),
      h 3 (by decide), h 4 (by decide)]
    rfl
  · intro cd ct cas env h
    show get_cas_time_run cd ct cas ((List.range REQUEST_ATTEMPTS).map env) = _
    rw [range_attempts_map, h 0 (by decide), h 1 (by decide), h 2 (by decide),
      h 3 (by decide), h 4 (by decide)]
    rfl

/-- Witness for the amended C6: parts applied at a concrete all-failing
environment. -/
theorem claim_C6_witness :
    ((fun _ => AttemptResult.err) (0 : Nat) = (AttemptResult.err : AttemptResult (List SlotEntry))) ∧
    (∀ i, i < REQUEST_ATTEMPTS →
      (fun _ => AttemptResult.err) i = (AttemptResult.err : AttemptResult (List SlotEntry))) ∧
    (get_consulate_appointment_date (fun _ => AttemptResult.err)).1 = none ∧
    get_cas_date "2024-06-10" "09:00" (fun _ => AttemptResult.err) =
      (none, 5,
       [QEffect.logCasDateError "2024-06-10" "09:00", QEffect.sleepStep,
        QEffect.logCasDateError "2024-06-10" "09:00", QEffect.sleepStep,
        QEffect.logCasDateError "2024-06-10" "09:00", QEffect.sleepStep,
        QEffect.logCasDateError "2024-06-10" "09:00", QEffect.sleepStep,
        QEffect.logCasDateError "2024-06-10" "09:00", QEffect.sleepStep]) :=
  ⟨rfl, fun _ _ => rfl,
    claim_C6_amended.2.1 (fun _ => AttemptResult.err) rfl,
    claim_C6_amended.2.2.2.1 "2024-06-10" "09:00" (fun _ => AttemptResult.err)
      (fun _ _ => rfl)⟩

/-- Claim C3: for every reschedule submission (all three dependent lookups
having produced values), `reschedule` returns `true` if and only if the
response body contains at least one of the fixed `SUCCESS_PATTERNS`
substrings; the status code is never consulted — replacing it by any other
value (a 200-range one included) leaves the result unchanged. -/
theorem claim_C3_reschedule_success_markers (env : RescheduleEnv)
    (h1 : env.timeResult.isSome) (h2 : env.casDateResult.isSome)
    (h3 : env.casTimeResult.isSome) :
    (reschedule env = true ↔
      ∃ p ∈ SUCCESS_PATTERNS, containsSubstr p env.response.text = true) ∧
    (∀ sc : Nat,
      reschedule ⟨env.timeResult, env.casDateResult, env.casTimeResult,
        ⟨sc, env.response.text⟩⟩ = reschedule env) := by
  obtain ⟨t, ht⟩ := Option.isSome_iff_exists.mp h1
  obtain ⟨cd, hcd⟩ := Option.isSome_iff_exists.mp h2
  obtain ⟨ctm, hctm⟩ := Option.isSome_iff_exists.mp h3
  constructor
  · have hre : reschedule env =
        SUCCESS_PATTERNS.any (fun substring => containsSubstr substring env.response.text) := by
      simp [reschedule, ht, hcd, hctm]
    rw [hre, List.any_eq_true]
  · intro sc
    simp [reschedule, ht, hcd, hctm]

/-- Witness for C3: a response whose body lacks every success marker and
whose status code is in the 200 range still yields `false`. -/
theorem claim_C3_witness :
    (some "09:00" : Option String).isSome ∧
    (some "2024-06-08" : Option String).isSome ∧
    (some "10:15" : Option String).isSome ∧
    reschedule ⟨some "09:00", some "2024-06-08", some "10:15",
      ⟨200, "No se pudo completar la solicitud"⟩⟩ = false ∧
    ((reschedule ⟨some "09:00", some "2024-06-08", some "10:15",
        ⟨200, "No se pudo completar la solicitud"⟩⟩ = true ↔
      ∃ p ∈ SUCCESS_PATTERNS,
        containsSubstr p "No se pudo completar la solicitud" = true) ∧
     (∀ sc : Nat,
      reschedule ⟨some "09:00", some "2024-06-08", some "10:15",
        ⟨sc, "No se pudo completar la solicitud"⟩⟩ =
        reschedule ⟨some "09:00", some "2024-06-08", some "10:15",
          ⟨200, "No se pudo completar la solicitud"⟩⟩)) :=
  ⟨rfl, rfl, rfl, by decide,
    claim_C3_reschedule_success_markers
      ⟨some "09:00", some "2024-06-08", some "10:15",
        ⟨200, "No se pudo completar la solicitud"⟩⟩ rfl rfl rfl⟩

/-- Claim C4: whenever the primary-facility date query returned an empty
sequence while the loop is polling, the cycle takes the temporary-ban
branch: it emits the BAN notification, signs out, and sleeps for the
configured ban-cooldown duration (exactly these effects, in the order the
code performs them), then carries `first_loop = True` into the next
iteration — the `authenticating` phase, whose resume block re-logs-in and
resets the work-cycle counters — and never calls `reschedule` (the
linking/submission stage) in that cycle. -/
theorem claim_C4_empty_primary_dates_is_ban
    (cfg : Config) (req_count : Nat) (env : CycleEnv)
    (h : env.datesResult = some []) :
    start_visa_process_cycle cfg req_count env =
      (⟨Phase.authenticating, req_count + 1⟩,
        [Effect.notifyBan, Effect.signOut, Effect.sleepBanCooldown]) ∧
    (∀ d, Effect.callReschedule d ∉ (start_visa_process_cycle cfg req_count env).2) ∧
    start_visa_process_resume true = ⟨Phase.polling, 0⟩ := by
  have h1 : start_visa_process_cycle cfg req_count env =
      (⟨Phase.authenticating, req_count + 1⟩,
        [Effect.notifyBan, Effect.signOut, Effect.sleepBanCooldown]) := by
    simp [start_visa_process_cycle, h, handle_ban_situation]
  refine ⟨h1, ?_, rfl⟩
  intro d
  rw [h1]
  simp

/-- Witness for C4 at a concrete configuration and cycle environment. -/
theorem claim_C4_witness :
    (CycleEnv.mk (some []) false 0 45).datesResult = some [] ∧
    (start_visa_process_cycle ⟨"2024-06-01", "2024-06-30", 1, 30, 60⟩ 0
        ⟨some [], false, 0, 45⟩ =
      (⟨Phase.authenticating, 1⟩,
        [Effect.notifyBan, Effect.signOut, Effect.sleepBanCooldown]) ∧
    (∀ d, Effect.callReschedule d ∉
      (start_visa_process_cycle ⟨"2024-06-01", "2024-06-30", 1, 30, 60⟩ 0
        ⟨some [], false, 0, 45⟩).2) ∧
    start_visa_process_resume true = ⟨Phase.polling, 0⟩) :=
  ⟨rfl,
    claim_C4_empty_primary_dates_is_ban ⟨"2024-06-01", "2024-06-30", 1, 30, 60⟩ 0
      ⟨some [], false, 0, 45⟩ rfl⟩

/-- Claim C9: the ban branch of the polling loop is taken for every falsy
result of `get_consulate_appointment_date` — including the `False` it
returns when its single attempt raises any exception — so a transient query
error is handled exactly like the empty-list temporary-ban signal: same
effects (BAN notification, sign-out, ban-cooldown sleep) and same
transition to re-authentication. -/
theorem claim_C9_falsy_dates_handled_as_ban
    (cfg : Config) (req_count : Nat)
    (qenv : Nat → AttemptResult (List SlotEntry))
    (ro : Bool) (tt : ℚ) (rr : Nat)
    (hq : qenv 0 = AttemptResult.err) :
    (get_consulate_appointment_date qenv).1 = none ∧
    start_visa_process_cycle cfg req_count
        ⟨(get_consulate_appointment_date qenv).1, ro, tt, rr⟩ =
      start_visa_process_cycle cfg req_count ⟨some [], ro, tt, rr⟩ ∧
    start_visa_process_cycle cfg req_count
        ⟨(get_consulate_appointment_date qenv).1, ro, tt, rr⟩ =
      (⟨Phase.authenticating, req_count + 1⟩,
        [Effect.notifyBan, Effect.signOut, Effect.sleepBanCooldown]) := by
  have h1 : (get_consulate_appointment_date qenv).1 = none := by
    simp [get_consulate_appointment_date, hq]
  refine ⟨h1, ?_, ?_⟩ <;> rw [h1] <;>
    simp [start_visa_process_cycle, handle_ban_situation]

/-- Witness for C9: a concrete environment whose first (and only consumed)
attempt raises. -/
theorem claim_C9_witness :
    ((fun _ => AttemptResult.err) (0 : Nat) =
      (AttemptResult.err : AttemptResult (List SlotEntry))) ∧
    ((get_consulate_appointment_date (fun _ => AttemptResult.err)).1 = none ∧
    start_visa_process_cycle ⟨"2024-06-01", "2024-06-30", 1, 30, 60⟩ 7
        ⟨(get_consulate_appointment_date (fun _ => AttemptResult.err)).1, false, 100, 45⟩ =
      start_visa_process_cycle ⟨"2024-06-01", "2024-06-30", 1, 30, 60⟩ 7
        ⟨some [], false, 100, 45⟩ ∧
    start_visa_process_cycle ⟨"2024-06-01", "2024-06-30", 1, 30, 60⟩ 7
        ⟨(get_consulate_appointment_date (fun _ => AttemptResult.err)).1, false, 100, 45⟩ =
      (⟨Phase.authenticating, 8⟩,
        [Effect.notifyBan, Effect.signOut, Effect.sleepBanCooldown])) :=
  ⟨rfl,
    claim_C9_falsy_dates_handled_as_ban ⟨"2024-06-01", "2024-06-30", 1, 30, 60⟩ 7
      (fun _ => AttemptResult.err) false 100 45 rfl⟩

/-- Claim C7: in a polling cycle where the primary listing was non-empty
and either no in-window date was selected or the reschedule attempt failed,
the loop computes the elapsed work-cycle time and: if it exceeds the
configured work-limit threshold, emits the REST notification, signs out,
sleeps for the configured rest-cooldown duration and carries
`first_loop = True` into the next iteration (the `authenticating` phase,
whose resume resets the counters); otherwise it sleeps the drawn
`random.randint(RETRY_TIME_L_BOUND, RETRY_TIME_U_BOUND)` seconds — a value
between the two configured bounds — and remains polling. -/
theorem claim_C7_work_limit_rest_or_random_retry
    (cfg : Config) (req_count : Nat) (env : CycleEnv) (dates : List SlotEntry)
    (hd : env.datesResult = some dates)
    (hne : dates ≠ [])
    (hsel : get_available_date cfg dates = Except.ok none ∨
      (∃ d, get_available_date cfg dates = Except.ok (some d) ∧
        env.rescheduleOk = false))
    (hrand : cfg.RETRY_TIME_L_BOUND ≤ env.retryRand ∧
      env.retryRand ≤ cfg.RETRY_TIME_U_BOUND) :
    (env.totalTime > cfg.WORK_LIMIT_TIME * (HOUR : ℚ) →
      (start_visa_process_cycle cfg req_count env).1 =
        ⟨Phase.authenticating, req_count + 1⟩ ∧
      Effect.notifyRest ∈ (start_visa_process_cycle cfg req_count env).2 ∧
      Effect.signOut ∈ (start_visa_process_cycle cfg req_count env).2 ∧
      Effect.sleepWorkCooldown ∈ (start_visa_process_cycle cfg req_count env).2 ∧
      start_visa_process_resume true = ⟨Phase.polling, 0⟩) ∧
    (¬ env.totalTime > cfg.WORK_LIMIT_TIME * (HOUR : ℚ) →
      (start_visa_process_cycle cfg req_count env).1 =
        ⟨Phase.polling, req_count + 1⟩ ∧
      Effect.sleepRetry env.retryRand ∈ (start_visa_process_cycle cfg req_count env).2 ∧
      cfg.RETRY_TIME_L_BOUND ≤ env.retryRand ∧
      env.retryRand ≤ cfg.RETRY_TIME_U_BOUND) := by
  cases dates with
  | nil => exact absurd rfl hne
  | cons e es =>
    constructor
    · intro htime
      have hbrk : handle_break_time cfg env.totalTime =
          (true, [Effect.notifyRest, Effect.signOut, Effect.sleepWorkCooldown]) := by
        simp [handle_break_time, htime]
      rcases hsel with hnone | ⟨d, hsome, hro⟩
      · have hc : start_visa_process_cycle cfg req_count env =
            (⟨Phase.authenticating, req_count + 1⟩,
              [Effect.notifyRest, Effect.signOut, Effect.sleepWorkCooldown]) := by
          simp [start_visa_process_cycle, hd, hnone, hbrk]
        rw [hc]
        exact ⟨rfl, by simp, by simp, by simp, rfl⟩
      · have hc : start_visa_process_cycle cfg req_count env =
            (⟨Phase.authenticating, req_count + 1⟩,
              Effect.callReschedule d ::
                [Effect.notifyRest, Effect.signOut, Effect.sleepWorkCooldown]) := by
          simp [start_visa_process_cycle, hd, hsome, hro, hbrk]
        rw [hc]
        exact ⟨rfl, by simp, by simp, by simp, rfl⟩
    · intro htime
      have hbrk : handle_break_time cfg env.totalTime = (false, []) := by
        simp [handle_break_time, htime]
      rcases hsel with hnone | ⟨d, hsome, hro⟩
      · have hc : start_visa_process_cycle cfg req_count env =
            (⟨Phase.polling, req_count + 1⟩, [Effect.sleepRetry env.retryRand]) := by
          simp [start_visa_process_cycle, hd, hnone, hbrk, handle_retry_wait]
        rw [hc]
        exact ⟨rfl, by simp, hrand.1, hrand.2⟩
      · have hc : start_visa_process_cycle cfg req_count env =
            (⟨Phase.polling, req_count + 1⟩,
              [Effect.callReschedule d, Effect.sleepRetry env.retryRand]) := by
          simp [start_visa_process_cycle, hd, hsome, hro, hbrk, handle_retry_wait]
        rw [hc]
        exact ⟨rfl, by simp, hrand.1, hrand.2⟩

/-- Witness for C7 at a concrete configuration: an out-of-window listing and
an elapsed time of 3700 seconds against a 1-hour work limit takes the REST
branch. -/
theorem claim_C7_witness :
    (CycleEnv.mk (some [⟨"2024-07-05", true⟩]) false 3700 45).datesResult =
      some [⟨"2024-07-05", true⟩] ∧
    ([(⟨"2024-07-05", true⟩ : SlotEntry)] ≠ []) ∧
    get_available_date ⟨"2024-06-01", "2024-06-30", 1, 30, 60⟩
      [⟨"2024-07-05", true⟩] = Except.ok none ∧
    ((30 : Nat) ≤ 45 ∧ (45 : Nat) ≤ 60) ∧
    ((3700 : ℚ) > (1 : ℚ) * (HOUR : ℚ)) ∧
    ((start_visa_process_cycle ⟨"2024-06-01", "2024-06-30", 1, 30, 60⟩ 0
        ⟨some [⟨"2024-07-05", true⟩], false, 3700, 45⟩).1 =
      ⟨Phase.authenticating, 1⟩ ∧
     Effect.notifyRest ∈ (start_visa_process_cycle ⟨"2024-06-01", "2024-06-30", 1, 30, 60⟩ 0
        ⟨some [⟨"2024-07-05", true⟩], false, 3700, 45⟩).2 ∧
     Effect.signOut ∈ (start_visa_process_cycle ⟨"2024-06-01", "2024-06-30", 1, 30, 60⟩ 0
        ⟨some [⟨"2024-07-05", true⟩], false, 3700, 45⟩).2 ∧
     Effect.sleepWorkCooldown ∈ (start_visa_process_cycle ⟨"2024-06-01", "2024-06-30", 1, 30, 60⟩ 0
        ⟨some [⟨"2024-07-05", true⟩], false, 3700, 45⟩).2 ∧
     start_visa_process_resume true = ⟨Phase.polling, 0⟩) :=
  ⟨rfl, by decide, rfl, by decide, by norm_num [HOUR, MINUTE],
    (claim_C7_work_limit_rest_or_random_retry ⟨"2024-06-01", "2024-06-30", 1, 30, 60⟩ 0
      ⟨some [⟨"2024-07-05", true⟩], false, 3700, 45⟩ [⟨"2024-07-05", true⟩]
      rfl (by decide) (Or.inl rfl) (by decide)).1 (by norm_num [HOUR, MINUTE])⟩

/-- Claim C8: `start_login_process` attempts login up to the fixed bound of
`REQUEST_ATTEMPTS` = 5 attempts; an attempt that ends at the
wrong-credentials marker emits the immediate user-facing notification and
returns `false` with no further attempts consumed; transient per-attempt
failures are logged and retried after the fixed short delay; and exhausting
all 5 attempts yields `false`. -/
theorem claim_C8_login_retry_policy (env : Nat → LoginAttempt) :
    ((∀ i, i < REQUEST_ATTEMPTS → env i = LoginAttempt.error) →
      start_login_process env =
        (false, REQUEST_ATTEMPTS, loginErrEffects REQUEST_ATTEMPTS)) ∧
    (∀ k, k < REQUEST_ATTEMPTS → env k = LoginAttempt.wrongCreds →
      (∀ j, j < k → env j = LoginAttempt.error) →
      start_login_process env =
        (false, k + 1, loginErrEffects k ++ [LoginEffect.notifyWrongCreds])) ∧
    (∀ k, k < REQUEST_ATTEMPTS → env k = LoginAttempt.success →
      (∀ j, j < k → env j = LoginAttempt.error) →
      start_login_process env = (true, k + 1, loginErrEffects k)) := by
  refine ⟨?_, ?_, ?_⟩
  · intro h
    show start_login_process_run ((List.range REQUEST_ATTEMPTS).map env) = _
    rw [range_attempts_map, h 0 (by decide), h 1 (by decide), h 2 (by decide),
      h 3 (by decide), h 4 (by decide)]
    rfl
  · intro k hk hwc hprev
    show start_login_process_run ((List.range REQUEST_ATTEMPTS).map env) = _
    rw [range_attempts_map]
    have hk5 : k < 5 := hk
    interval_cases k
    · rw [hwc]; rfl
    · rw [hprev 0 (by decide), hwc]; rfl
    · rw [hprev 0 (by decide), hprev 1 (by decide), hwc]; rfl
    · rw [hprev 0 (by decide), hprev 1 (by decide), hprev 2 (by decide), hwc]; rfl
    · rw [hprev 0 (by decide), hprev 1 (by decide), hprev 2 (by decide),
        hprev 3 (by decide), hwc]; rfl
  · intro k hk hsc hprev
    show start_login_process_run ((List.range REQUEST_ATTEMPTS).map env) = _
    rw [range_attempts_map]
    have hk5 : k < 5 := hk
    interval_cases k
    · rw [hsc]; rfl
    · rw [hprev 0 (by decide), hsc]; rfl
    · rw [hprev 0 (by decide), hprev 1 (by decide), hsc]; rfl
    · rw [hprev 0 (by decide), hprev 1 (by decide), hprev 2 (by decide), hsc]; rfl
    · rw [hprev 0 (by decide), hprev 1 (by decide), hprev 2 (by decide),
        hprev 3 (by decide), hsc]; rfl

/-- Witness for C8: two transient failures followed by the wrong-credentials
marker — the run stops at attempt 3 with the notification, after logging and
delaying the two transient failures. -/
theorem claim_C8_witness :
    ((2 : Nat) < REQUEST_ATTEMPTS) ∧
    ((fun i => if i = 2 then LoginAttempt.wrongCreds else LoginAttempt.error) 2 =
      LoginAttempt.wrongCreds) ∧
    (∀ j, j < 2 →
      (fun i => if i = 2 then LoginAttempt.wrongCreds else LoginAttempt.error) j =
        LoginAttempt.error) ∧
    start_login_process
        (fun i => if i = 2 then LoginAttempt.wrongCreds else LoginAttempt.error) =
      (false, 3, loginErrEffects 2 ++ [LoginEffect.notifyWrongCreds]) :=
  ⟨by decide, rfl, by decide,
    (claim_C8_login_retry_policy
      (fun i => if i = 2 then LoginAttempt.wrongCreds else LoginAttempt.error)).2.1
      2 (by decide) rfl (by decide)⟩
